import Mathlib

/-!
Shallow embedding of the request/response pipeline of the gpt5_mcp server
(`src/gpt5-client.ts`, `src/message-processor.ts`, `src/types.ts`,
`src/config.ts`), together with theorems settling the specification claims
about `MessageProcessor.validateRequest`, `MessageProcessor.sanitizeText`,
`MessageProcessor.formatResponseContent`, `MessageProcessor.estimateTokens`,
`MessageProcessor.truncateIfNeeded`, `GPT5Client`'s constructor and
`GPT5Client.testConnection`.

JavaScript strings are modelled as lists of characters (`JsStr`); JavaScript
numbers as rationals (the values the claims exercise are exact in every
floating-point width, and no claim concerns NaN); dynamically-typed values
reaching the validator as the inductive `JSVal`, with an opaque `objv`
constructor standing for any object-valued field (the code only ever observes
truthiness and `typeof` on those, never their content); thrown exceptions as
`Except`.
-/

/-- A JavaScript string, as a list of characters. -/
abbrev JsStr := List Char

/-- The characters `String.prototype.trim` removes: ECMAScript WhiteSpace
and LineTerminator code points. -/
def jsWhitespace (c : Char) : Bool :=
  c.toNat = 9 || c.toNat = 10 || c.toNat = 11 || c.toNat = 12 || c.toNat = 13 ||
  c.toNat = 32 || c.toNat = 160 || c.toNat = 0x1680 ||
  (0x2000 ≤ c.toNat && c.toNat ≤ 0x200A) ||
  c.toNat = 0x2028 || c.toNat = 0x2029 || c.toNat = 0x202F ||
  c.toNat = 0x205F || c.toNat = 0x3000 || c.toNat = 0xFEFF

/-- `text.trim()`: drop leading and trailing JavaScript whitespace. -/
def jsTrim (s : JsStr) : JsStr :=
  ((s.dropWhile jsWhitespace).reverse.dropWhile jsWhitespace).reverse

/-- The character class `[\x01-\x1F\x7F]` of the second `replace` in
`sanitizeText`. Note that it contains tab (9) and newline (10), despite the
source comment "Remove control characters except newlines/tabs". -/
def ctrlChar (c : Char) : Bool :=
  (1 ≤ c.toNat && c.toNat ≤ 31) || c.toNat = 127

/-- `MessageProcessor.sanitizeText`: trim, remove null bytes
(`replace(/\x00/g, '')`), remove the `[\x01-\x1F\x7F]` class, and keep the
first 100000 characters (`substring(0, 100000)`). -/
def sanitizeText (text : JsStr) : JsStr :=
  ((((jsTrim text).filter (fun c => !(c.toNat == 0))).filter
    (fun c => !ctrlChar c)).take 100000)

/-- A dynamically-typed JavaScript value stored in a field of the raw request
object. `objv` stands for any object/array/function value: the validator only
observes truthiness and `typeof` on field values it does not accept, so their
content is irrelevant. NaN is not modelled; no claim involves it. -/
inductive JSVal where
  | undef
  | null
  | bool (b : Bool)
  | num (q : ℚ)
  | str (s : JsStr)
  | objv
deriving DecidableEq

/-- JavaScript truthiness of a field value. -/
def JSVal.truthy : JSVal → Bool
  | .undef => false
  | .null => false
  | .bool b => b
  | .num q => !(q == 0)
  | .str s => !s.isEmpty
  | .objv => true

/-- `typeof v === 'string'`. -/
def JSVal.isString : JSVal → Bool
  | .str _ => true
  | _ => false

/-- `typeof v === 'number'`. -/
def JSVal.isNumber : JSVal → Bool
  | .num _ => true
  | _ => false

/-- The fields of the raw request object that `validateRequest` reads.
A field that is missing from the incoming object reads as `undef`. -/
structure RawRequest where
  prompt : JSVal := .undef
  context : JSVal := .undef
  model : JSVal := .undef
  verbosity : JSVal := .undef
  reasoning_effort : JSVal := .undef
  max_tokens : JSVal := .undef
  temperature : JSVal := .undef
deriving DecidableEq

/-- A primitive (non-object) JavaScript value arriving as the whole raw
request: these are exactly the inputs for which
`!rawRequest || typeof rawRequest !== 'object'` holds. -/
inductive JSPrim where
  | undef
  | null
  | bool (b : Bool)
  | num (q : ℚ)
  | str (s : JsStr)
deriving DecidableEq

/-- The raw argument of `validateRequest`: either a primitive value or an
object carrying the fields the validator reads. -/
inductive RawInput where
  | prim (v : JSPrim)
  | obj (r : RawRequest)
deriving DecidableEq

/-- The `openai` section of `ServerConfig` (`types.ts`). The TypeScript type
of `apiKey` is `string`, so a missing key is modelled by the empty string —
the constructor guard `!config.openai.apiKey` treats both identically. -/
structure OpenAIConfig where
  apiKey : JsStr
  baseURL : Option JsStr := none
  defaultModel : JsStr
  timeout : ℚ
deriving DecidableEq

/-- The `server` section of `ServerConfig`. -/
structure ServerSection where
  name : JsStr
  version : JsStr
  maxRetries : ℚ
  retryDelay : ℚ
deriving DecidableEq

/-- The log levels of `ServerConfig.logging.level`. -/
inductive LogLevel where
  | debug
  | info
  | warn
  | error
deriving DecidableEq

/-- The `logging` section of `ServerConfig`. -/
structure LoggingSection where
  level : LogLevel
  logRequests : Bool
  logResponses : Bool
deriving DecidableEq

/-- `ServerConfig` from `types.ts`. -/
structure ServerConfig where
  openai : OpenAIConfig
  server : ServerSection
  logging : LoggingSection
deriving DecidableEq

/-- The validated request produced by `validateRequest` (`GPT5QueryRequest`).
`prompt` and `context` are genuine strings by construction; `model`,
`verbosity` and `reasoning_effort` are copied from the raw input without a
type check (the code only applies `||`-defaulting to them), so they keep the
dynamic type `JSVal`. -/
structure GPT5QueryRequest where
  prompt : JsStr
  context : Option JsStr := none
  model : JSVal
  verbosity : JSVal
  reasoning_effort : JSVal
  max_tokens : Option ℚ := none
  temperature : Option ℚ := none
deriving DecidableEq

/-- Decidable equality for `Except`, so that concrete runs of the validator
and client can be checked by evaluation. -/
instance {ε α : Type} [DecidableEq ε] [DecidableEq α] : DecidableEq (Except ε α) :=
  fun x y =>
    match x, y with
    | .ok a, .ok b => decidable_of_iff (a = b) (by simp)
    | .error a, .error b => decidable_of_iff (a = b) (by simp)
    | .ok _, .error _ => isFalse (fun h => Except.noConfusion h)
    | .error _, .ok _ => isFalse (fun h => Except.noConfusion h)

/-- Exact text of `'Invalid request: must be an object'`. -/
def msgMustBeObject : JsStr := "Invalid request: must be an object".toList

/-- Exact text of `'Invalid request: prompt is required and must be a string'`. -/
def msgPromptRequired : JsStr :=
  "Invalid request: prompt is required and must be a string".toList

/-- `MessageProcessor.validateRequest`. A thrown `Error` is an `Except.error`
carrying the message. Mirrors the source line by line:
`!rawRequest || typeof rawRequest !== 'object'` rejects every primitive
(`undefined`, `null`, booleans, numbers and strings all fail one of the two
tests); `!rawRequest.prompt || typeof rawRequest.prompt !== 'string'` rejects
everything except a non-empty string; `rawRequest.model || default` keeps any
truthy value; `rawRequest.context && typeof === 'string'` keeps only truthy
strings; `rawRequest.max_tokens && typeof === 'number'` skips the number `0`
(falsy); `rawRequest.temperature !== undefined && typeof === 'number'`
accepts the number `0`. -/
def validateRequest (cfg : ServerConfig) : RawInput → Except JsStr GPT5QueryRequest
  | .prim _ => .error msgMustBeObject
  | .obj r =>
    match r.prompt with
    | .str p =>
      if p.isEmpty then .error msgPromptRequired
      else .ok
        { prompt := sanitizeText p
          model := if r.model.truthy then r.model else .str cfg.openai.defaultModel
          verbosity := if r.verbosity.truthy then r.verbosity else .str "medium".toList
          reasoning_effort :=
            if r.reasoning_effort.truthy then r.reasoning_effort
            else .str "standard".toList
          context :=
            match r.context with
            | .str c => if c.isEmpty then none else some (sanitizeText c)
            | _ => none
          max_tokens :=
            match r.max_tokens with
            | .num q => if q == 0 then none else some (min (max q 1) 128000)
            | _ => none
          temperature :=
            match r.temperature with
            | .num q => some (min (max q 0) 2)
            | _ => none }
    | _ => .error msgPromptRequired

/-- `MessageProcessor.estimateTokens`: `Math.ceil(text.length / 4)`. -/
def estimateTokens (text : JsStr) : ℕ := (text.length + 3) / 4

/-- The marker `'...[truncated]'` appended by `truncateIfNeeded`. -/
def truncMarker : JsStr := "...[truncated]".toList

/-- `request.context || ''`, the string the token estimate is taken over. -/
def contextOrEmpty (request : GPT5QueryRequest) : JsStr := request.context.getD []

/-- The context branch of `truncateIfNeeded`:
`if (request.context && totalLength > maxChars)` — the guard holds only for
a present, non-empty context (an empty string is falsy), and
`totalLength = request.prompt.length + (request.context?.length || 0)`.
`contextLimit = Math.max(0, maxChars - request.prompt.length)` is the
truncated natural subtraction; `substring(0, n)` is `take n`;
`maxChars = 380000 * 4`. -/
def truncateContext (request : GPT5QueryRequest) : GPT5QueryRequest :=
  match request.context with
  | some c =>
    if !c.isEmpty && request.prompt.length + c.length > 380000 * 4 then
      { request with
          context := some (c.take (380000 * 4 - request.prompt.length) ++ truncMarker) }
    else request
  | none => request

/-- The prompt branch of `truncateIfNeeded`:
`if (request.prompt.length > maxChars)` then
`request.prompt.substring(0, maxChars - 100) + '...[truncated]'`. The code
mutates only `request.context` before this test, so the prompt it tests and
slices is the original one. -/
def truncatePrompt (request : GPT5QueryRequest) : GPT5QueryRequest :=
  if request.prompt.length > 380000 * 4 then
    { request with prompt := request.prompt.take (380000 * 4 - 100) ++ truncMarker }
  else request

/-- `MessageProcessor.truncateIfNeeded`: when the estimate over
`request.prompt + (request.context || '')` exceeds `maxPromptTokens =
380000`, run the context branch and then the prompt branch; otherwise return
the request unchanged. The function is total: the operation never fails. -/
def truncateIfNeeded (request : GPT5QueryRequest) : GPT5QueryRequest :=
  if estimateTokens (request.prompt ++ contextOrEmpty request) > 380000 then
    truncatePrompt (truncateContext request)
  else request

/-- `GPT5ClientError` (`types.ts`): message, optional HTTP status, optional
wrapped original error (represented by its message text). -/
structure GPT5ClientError where
  message : JsStr
  statusCode : Option ℚ := none
  originalError : Option JsStr := none
deriving DecidableEq

/-- The upstream client value produced by a successful `new GPT5Client(config)`. -/
structure GPT5Client where
  config : ServerConfig
deriving DecidableEq

/-- The `GPT5Client` constructor: `if (!config.openai.apiKey) throw new
GPT5ClientError('OpenAI API key is required')`, before any network call. A
constructor that throws is an `Except.error`; otherwise the client is built. -/
def GPT5Client.construct (config : ServerConfig) : Except GPT5ClientError GPT5Client :=
  if config.openai.apiKey.isEmpty then
    .error { message := "OpenAI API key is required".toList }
  else
    .ok { config := config }

/-- One message of the chat request (`OpenAIRequest['input']`). Roles other
than `'user'` never occur in this code path. -/
structure OpenAIMessage where
  content : JsStr
deriving DecidableEq

/-- `OpenAIRequest` (`types.ts`): the upstream request shape built by
`GPT5Client.formatRequest`. -/
structure OpenAIRequest where
  model : JSVal
  input : List OpenAIMessage
  max_output_tokens : Option ℚ := none
  verbosity : JSVal
  reasoning_effort : JSVal
  temperature : Option ℚ := none
deriving DecidableEq

/-- `GPT5Client.formatRequest`: one user message whose content is
`` `Context: ${context}\n\nRequest: ${prompt}` `` when `request.context` is
truthy (present and non-empty) and the bare prompt otherwise;
`max_output_tokens` is set only when `request.max_tokens` is truthy
(`if (request.max_tokens)`), `temperature` whenever it is not `undefined`. -/
def formatRequest (request : GPT5QueryRequest) : OpenAIRequest :=
  { model := request.model
    input := [⟨match request.context with
               | some c =>
                 if c.isEmpty then request.prompt
                 else "Context: ".toList ++ c ++ "\n\nRequest: ".toList ++ request.prompt
               | none => request.prompt⟩]
    verbosity := request.verbosity
    reasoning_effort := request.reasoning_effort
    max_output_tokens :=
      match request.max_tokens with
      | some q => if q == 0 then none else some q
      | none => none
    temperature := request.temperature }

/-- What `query` reads out of the raw chat-completions response:
`choices[0]?.message?.content`, the three usage counters,
`system_fingerprint` and `created`. Every part may be absent. -/
structure ChatUsage where
  prompt_tokens : Option ℚ := none
  completion_tokens : Option ℚ := none
  total_tokens : Option ℚ := none
deriving DecidableEq

/-- `choices[i].message` of the raw response. -/
structure ChatMessage where
  content : Option JsStr := none
deriving DecidableEq

/-- One element of `choices` in the raw response. -/
structure ChatChoice where
  message : Option ChatMessage := none
deriving DecidableEq

/-- The raw upstream chat-completions response. -/
structure ChatCompletion where
  choices : List ChatChoice := []
  usage : Option ChatUsage := none
  system_fingerprint : Option JsStr := none
  created : Option ℚ := none
deriving DecidableEq

/-- What `await this.openai.chat.completions.create(...)` did: returned a
response, threw an `OpenAI.APIError`, threw some other `Error` (carrying a
message), or threw a non-`Error` value. The network call itself is outside
this repository; only its outcome is observed. -/
inductive UpstreamOutcome where
  | ok (resp : ChatCompletion)
  | apiError (message : JsStr) (status : Option ℚ)
  | otherError (message : JsStr)
  | nonErrorThrow
deriving DecidableEq

/-- `OpenAIResponse` (`types.ts`): the adapter's internal response record. -/
structure OpenAIResponse where
  output_text : JsStr
  prompt_tokens : ℚ
  completion_tokens : ℚ
  total_tokens : ℚ
  model_fingerprint : JsStr
  created : ℚ
deriving DecidableEq

/-- `x || 0` over an optional numeric field: `0` and absence both give `0`. -/
def orZero (x : Option ℚ) : ℚ :=
  match x with
  | some q => q
  | none => 0

/-- `GPT5Client.query`, given the outcome of the one upstream call and the
start wall-clock time in milliseconds. `output_text` is
`choices?.[0]?.message?.content || ''`; the usage counters default to `0`;
`model_fingerprint` is `system_fingerprint || ''`; `created` is
`response.created || Math.floor(startTime / 1000)` (so a `0` or absent
`created` falls back). An `OpenAI.APIError` is re-thrown as
`GPT5ClientError` with prefix `'OpenAI API Error: '` and the status code;
any other exception with prefix `'Unexpected error: '` (message
`'Unknown error'` when the thrown value was not an `Error`). -/
def queryResult (request : GPT5QueryRequest) (outcome : UpstreamOutcome)
    (startTimeMs : ℚ) : Except GPT5ClientError OpenAIResponse :=
  let _openaiRequest := formatRequest request
  match outcome with
  | .ok resp =>
    .ok
      { output_text :=
          match resp.choices with
          | [] => []
          | choice :: _ =>
            match choice.message with
            | some m => m.content.getD []
            | none => []
        prompt_tokens := orZero ((resp.usage.map ChatUsage.prompt_tokens).getD none)
        completion_tokens := orZero ((resp.usage.map ChatUsage.completion_tokens).getD none)
        total_tokens := orZero ((resp.usage.map ChatUsage.total_tokens).getD none)
        model_fingerprint := resp.system_fingerprint.getD []
        created :=
          match resp.created with
          | some c => if c == 0 then (Int.floor (startTimeMs / 1000) : ℚ) else c
          | none => (Int.floor (startTimeMs / 1000) : ℚ) }
  | .apiError msg status =>
    .error
      { message := "OpenAI API Error: ".toList ++ msg
        statusCode := status
        originalError := some msg }
  | .otherError msg =>
    .error { message := "Unexpected error: ".toList ++ msg, originalError := some msg }
  | .nonErrorThrow =>
    .error { message := "Unexpected error: Unknown error".toList }

/-- The fixed probe request built inside `GPT5Client.testConnection`. -/
def probeRequest : GPT5QueryRequest :=
  { prompt := "Hello, this is a connection test.".toList
    model := .str "gpt-5-nano".toList
    verbosity := .str "low".toList
    reasoning_effort := .str "minimal".toList
    max_tokens := some 10 }

/-- `GPT5Client.testConnection`: issue the probe through `query`, return
`true` on success; `catch (error) { ...; return false }` turns every
exception into `false`. Totality of this Lean function is the "never
propagates" part of the contract. -/
def testConnection (outcome : UpstreamOutcome) (startTimeMs : ℚ) : Bool :=
  match queryResult probeRequest outcome startTimeMs with
  | .ok _ => true
  | .error _ => false

/-- `hay.includes(needle)`: `needle` occurs as a contiguous substring. -/
def strContains (needle : JsStr) : JsStr → Bool
  | [] => needle.isEmpty
  | c :: t => needle.isPrefixOf (c :: t) || strContains needle t

/-- `toLowerCase()`. `Char.toLower` lower-cases ASCII letters; the fixed
indicator list below is pure ASCII, so the comparison the code performs is
captured exactly on it. -/
def toLowerStr (s : JsStr) : JsStr := s.map Char.toLower

/-- The `codeIndicators` array of `MessageProcessor.containsCode`. -/
def codeIndicators : List JsStr :=
  ["```", "function ", "class ", "import ", "const ", "let ", "var ",
   "def ", "public ", "private ", "#include", "SELECT ", "FROM "].map
    (fun s => s.toList)

/-- `MessageProcessor.containsCode`: some indicator occurs (case-insensitively)
in the content. -/
def containsCode (content : JsStr) : Bool :=
  codeIndicators.any (fun ind => strContains (toLowerStr ind) (toLowerStr content))

/-- The three-backtick fence marker. -/
def fenceStr : JsStr := "```".toList

/-- The backtick character, code point 96. -/
def isBacktick (c : Char) : Bool := c.toNat = 96

/-- `(formatted.match(/```/g) || []).length`: non-overlapping fence count,
scanning left to right (a match consumes its three characters). -/
def countFences : JsStr → ℕ
  | c1 :: c2 :: c3 :: rest =>
    if isBacktick c1 && isBacktick c2 && isBacktick c3 then countFences rest + 1
    else countFences (c2 :: c3 :: rest)
  | _ => 0

/-- An opening fence followed directly by a language tag: the regex lookahead
`[\w-]+\n` succeeds right after `` ```\n `` exactly when a non-empty run of
word characters or hyphens is followed by a newline. -/
def langTagFollows (rest : JsStr) : Bool :=
  !(rest.takeWhile (fun c => c.isAlpha || c.isDigit || c = '_' || c = '-')).isEmpty &&
    (match rest.dropWhile (fun c => c.isAlpha || c.isDigit || c = '_' || c = '-') with
     | c :: _ => c = '\n'
     | [] => false)

/-- `` formatted.replace(/```\n(?![\w-]+\n)/g, '```text\n') ``: scan left to
right; at a match emit the replacement and resume after the matched four
characters; otherwise copy one character. Lists shorter than the pattern are
copied unchanged. -/
def relabelFences : JsStr → JsStr
  | c1 :: c2 :: c3 :: c4 :: rest =>
    if isBacktick c1 && isBacktick c2 && isBacktick c3 && c4 = '\n' &&
        !langTagFollows rest then
      "```text\n".toList ++ relabelFences rest
    else c1 :: relabelFences (c2 :: c3 :: c4 :: rest)
  | s => s

/-- The newline run `\n...\n` of length `n` as the regex
`/\n\n\n+/g` rewrites it: a maximal run of three or more newlines becomes
exactly two, shorter runs are kept. -/
def emitNlRun (n : ℕ) : JsStr :=
  if n ≥ 3 then ['\n', '\n'] else List.replicate n '\n'

/-- One-pass worker for `collapseNewlines`: `n` counts the newline run read
so far. -/
def collapseGo : ℕ → JsStr → JsStr
  | n, [] => emitNlRun n
  | n, c :: rest =>
    if c = '\n' then collapseGo (n + 1) rest
    else emitNlRun n ++ c :: collapseGo 0 rest

/-- `formatted.replace(/\n\n\n+/g, '\n\n')`: the regex matches exactly the
maximal runs of three or more newlines (`\n+` is greedy) and replaces each
with two. -/
def collapseNewlines (s : JsStr) : JsStr := collapseGo 0 s

/-- `MessageProcessor.formatCodeBlocks`: close an unbalanced fence
(`formatted += '\n```'` when the count is odd), then tag unlabelled opening
fences with `text`. -/
def formatCodeBlocks (content : JsStr) : JsStr :=
  let withClosed :=
    if countFences content % 2 ≠ 0 then content ++ ('\n' :: fenceStr) else content
  relabelFences withClosed

/-- The fixed display header `'🤖 **GPT-5 Response**\n\n'`. -/
def displayHeader : JsStr := "🤖 **GPT-5 Response**\n\n".toList

/-- The placeholder `'No response generated.'`. -/
def noResponseText : JsStr := "No response generated.".toList

/-- `MessageProcessor.formatResponseContent`. `if (!content)` returns the
bare placeholder at once — the header is prepended only on the other path.
Otherwise: trim, repair code fences when an indicator is found, collapse
runs of three or more newlines, and prepend the header. -/
def formatResponseContent (content : JsStr) : JsStr :=
  if content.isEmpty then noResponseText
  else
    let formatted := jsTrim content
    let formatted := if containsCode formatted then formatCodeBlocks formatted else formatted
    let formatted := collapseNewlines formatted
    displayHeader ++ formatted

/-- A concrete configuration for witnesses: the hard-coded fallback defaults
of `loadDefaultConfig` in `config.ts`, with a test key. -/
def exampleConfig : ServerConfig :=
  { openai := { apiKey := "sk-test-key".toList, defaultModel := "gpt-5".toList,
                timeout := 60000 }
    server := { name := "gpt5-claude-mcp".toList, version := "1.0.0".toList,
                maxRetries := 3, retryDelay := 1000 }
    logging := { level := .info, logRequests := false, logResponses := false } }

/-- A configuration whose credential was never supplied: the hard-coded
fallback of `loadDefaultConfig` has `apiKey: ''`. -/
def noKeyConfig : ServerConfig :=
  { openai := { apiKey := [], defaultModel := "gpt-5".toList, timeout := 60000 }
    server := { name := "gpt5-claude-mcp".toList, version := "1.0.0".toList,
                maxRetries := 3, retryDelay := 1000 }
    logging := { level := .info, logRequests := false, logResponses := false } }

/-- An otherwise-minimal raw request whose `max_tokens` is the number `0`. -/
def rawMaxTokensZero : RawRequest :=
  { prompt := .str "hi".toList, max_tokens := .num 0 }

/-- The request `validateRequest` actually produces for `rawMaxTokensZero`. -/
def reqMaxTokensZero : GPT5QueryRequest :=
  { prompt := "hi".toList, model := .str "gpt-5".toList,
    verbosity := .str "medium".toList, reasoning_effort := .str "standard".toList }

/-- A raw request whose `max_tokens`, 200000, lies above the range. -/
def rawMaxTokensBig : RawRequest :=
  { prompt := .str "hi".toList, max_tokens := .num 200000 }

/-- A raw request whose prompt is the single-space string: truthy and of
string type, so the validator accepts it. -/
def rawBlankPrompt : RawRequest := { prompt := .str " ".toList }

/-- The request `validateRequest` produces for `rawBlankPrompt`: sanitization
trims the lone space away, leaving an empty prompt. -/
def reqBlankPrompt : GPT5QueryRequest :=
  { prompt := [], model := .str "gpt-5".toList,
    verbosity := .str "medium".toList, reasoning_effort := .str "standard".toList }

/-- A minimal raw request `{ prompt: 'Hello' }`. -/
def rawHello : RawRequest := { prompt := .str "Hello".toList }

/-- The request `validateRequest` produces for `rawHello` under the default
configuration. -/
def reqHello : GPT5QueryRequest :=
  { prompt := "Hello".toList, model := .str "gpt-5".toList,
    verbosity := .str "medium".toList, reasoning_effort := .str "standard".toList }

/-- An over-budget request: 8 prompt characters plus a 1520000-character
context put the estimate at 380002 tokens. -/
def bigReq : GPT5QueryRequest :=
  { prompt := List.replicate 8 'a', context := some (List.replicate 1520000 'b'),
    model := .str "gpt-5".toList, verbosity := .str "medium".toList,
    reasoning_effort := .str "standard".toList }

/-- The short request of the repository's own truncation test. -/
def shortReq : GPT5QueryRequest :=
  { prompt := "Short prompt".toList, model := .str "gpt-5".toList,
    verbosity := .str "medium".toList, reasoning_effort := .str "standard".toList }

/-- Trimming only removes characters: the result is a sublist of the input. -/
theorem jsTrim_sublist (s : JsStr) : List.Sublist (jsTrim s) s := by
  have h1 : List.Sublist (s.dropWhile jsWhitespace) s := List.dropWhile_sublist _
  have h2 : List.Sublist ((s.dropWhile jsWhitespace).reverse.dropWhile jsWhitespace)
      (s.dropWhile jsWhitespace).reverse := List.dropWhile_sublist _
  have h3 := h2.reverse
  rw [List.reverse_reverse] at h3
  exact h3.trans h1

/-- Every character surviving `sanitizeText` passed both `replace` filters. -/
theorem mem_sanitizeText {s : JsStr} {c : Char} (h : c ∈ sanitizeText s) :
    (!(c.toNat == 0)) = true ∧ (!ctrlChar c) = true := by
  have h1 := (List.take_sublist _ _).subset h
  rw [List.mem_filter] at h1
  obtain ⟨h2, hctrl⟩ := h1
  rw [List.mem_filter] at h2
  exact ⟨h2.2, hctrl⟩

/-- `sanitizeText` caps the length at 100000. -/
theorem sanitizeText_length_le (s : JsStr) : (sanitizeText s).length ≤ 100000 :=
  List.length_take_le _ _

/-- C3 (counterexample). The claim "sanitizing twice yields the same result
as sanitizing once" fails at the concrete input `"\x01 a"`: the first pass
trims nothing (the string starts with `\x01` and ends with `a`), then removes
the control character, leaving `" a"`; the second pass trims the space that
removal exposed. -/
theorem sanitizeText_not_idempotent_cex :
    sanitizeText ['\x01', ' ', 'a'] = [' ', 'a'] ∧
    sanitizeText (sanitizeText ['\x01', ' ', 'a']) = ['a'] ∧
    sanitizeText (sanitizeText ['\x01', ' ', 'a']) ≠ sanitizeText ['\x01', ' ', 'a'] := by
  refine ⟨by decide, by decide, by decide⟩

/-- C3 (amended). `sanitizeText` applied twice equals trimming the
once-sanitized text: after one pass no null byte or control character is
left and the length is at most 100000, so the second pass reduces to its
`trim`. Equivalently, `sanitizeText` is idempotent exactly on inputs whose
sanitized form carries no leading or trailing whitespace. -/
theorem sanitizeText_twice_eq_trim (s : JsStr) :
    sanitizeText (sanitizeText s) = jsTrim (sanitizeText s) := by
  have hmem : ∀ c ∈ jsTrim (sanitizeText s), c ∈ sanitizeText s :=
    fun c hc => (jsTrim_sublist _).subset hc
  have h1 : (jsTrim (sanitizeText s)).filter (fun c => !(c.toNat == 0)) =
      jsTrim (sanitizeText s) :=
    List.filter_eq_self.mpr (fun a ha => (mem_sanitizeText (hmem a ha)).1)
  have h2 : (jsTrim (sanitizeText s)).filter (fun c => !ctrlChar c) =
      jsTrim (sanitizeText s) :=
    List.filter_eq_self.mpr (fun a ha => (mem_sanitizeText (hmem a ha)).2)
  show (((jsTrim (sanitizeText s)).filter (fun c => !(c.toNat == 0))).filter
      (fun c => !ctrlChar c)).take 100000 = jsTrim (sanitizeText s)
  rw [h1, h2]
  exact List.take_of_length_le
    (le_trans (jsTrim_sublist _).length_le (sanitizeText_length_le s))

/-- C5 (code bug). The spec — and the source's own inline comment "Remove
control characters except newlines/tabs" — say newline and tab survive
sanitization, but the character class `[\x01-\x1F\x7F]` contains `\x09` and
`\x0A`, so `sanitizeText` deletes them: `"a\nb"` becomes `"ab"` and
`"a\tb"` becomes `"ab"`. The remaining replacements of the claim do hold:
surrounding whitespace is trimmed and the null byte removed. -/
theorem sanitizeText_strips_newline_and_tab :
    sanitizeText "a\nb".toList = "ab".toList ∧
    sanitizeText "a\tb".toList = "ab".toList ∧
    sanitizeText "  a  ".toList = "a".toList ∧
    sanitizeText ['a', '\x00', 'b'] = "ab".toList := by
  refine ⟨by decide, by decide, by decide, by decide⟩

/-- C4 (counterexample). For an empty upstream text, `formatResponseContent`
returns through the early `if (!content)` branch: the result is the bare
placeholder and the fixed display header is not a prefix of it. -/
theorem formatResponseContent_empty_no_header_cex :
    formatResponseContent [] = noResponseText ∧
    displayHeader.isPrefixOf (formatResponseContent []) = false := by
  refine ⟨rfl, by decide⟩

/-- C4 (amended). For an empty upstream text the produced content is exactly
the placeholder `'No response generated.'` — with no header prepended; the
header is added only on the non-empty path. -/
theorem formatResponseContent_empty : formatResponseContent [] = noResponseText := rfl

/-- C8. With an empty (or, equivalently for `!apiKey`, missing) credential,
the `GPT5Client` constructor itself fails with exactly
`'OpenAI API key is required'`: no client value is ever produced, so the
failure cannot be deferred to a later `query` call. -/
theorem construct_requires_apiKey (cfg : ServerConfig)
    (h : cfg.openai.apiKey = []) :
    GPT5Client.construct cfg =
      .error { message := "OpenAI API key is required".toList } ∧
    ∀ c : GPT5Client, GPT5Client.construct cfg ≠ .ok c := by
  have he : GPT5Client.construct cfg =
      .error { message := "OpenAI API key is required".toList } := by
    unfold GPT5Client.construct
    rw [h]
    rfl
  exact ⟨he, fun c hc => by rw [he] at hc; exact Except.noConfusion hc⟩

/-- C8 (witness): the constructor fails on the concrete credential-less
configuration. -/
theorem construct_requires_apiKey_witness :
    noKeyConfig.openai.apiKey = [] ∧
    (GPT5Client.construct noKeyConfig =
        .error { message := "OpenAI API key is required".toList } ∧
     ∀ c : GPT5Client, GPT5Client.construct noKeyConfig ≠ .ok c) :=
  ⟨rfl, construct_requires_apiKey noKeyConfig rfl⟩

/-- C9. `testConnection` is a total function into `Bool` (it can never
propagate an exception), and its value is determined by the outcome of the
probe query alone: `true` when the upstream call returned a response, `false`
for every way the upstream call can throw (API error, other `Error`,
non-`Error` value). -/
theorem testConnection_bool_of_outcome :
    (∀ (resp : ChatCompletion) (startMs : ℚ),
        testConnection (.ok resp) startMs = true) ∧
    (∀ (msg : JsStr) (status : Option ℚ) (startMs : ℚ),
        testConnection (.apiError msg status) startMs = false) ∧
    (∀ (msg : JsStr) (startMs : ℚ),
        testConnection (.otherError msg) startMs = false) ∧
    (∀ startMs : ℚ, testConnection .nonErrorThrow startMs = false) :=
  ⟨fun _ _ => rfl, fun _ _ _ => rfl, fun _ _ => rfl, fun _ => rfl⟩

/-- C6. `validateRequest` fails with exactly `'Invalid request: must be an
object'` on every primitive input (`undefined`, `null`, booleans, numbers,
strings — `null` is caught by `!rawRequest`, the rest by `typeof`), and with
exactly `'Invalid request: prompt is required and must be a string'` on every
object whose `prompt` field is absent (`undef`) or not a string; in both
cases the result is an error, so no request is produced. -/
theorem validateRequest_rejects (cfg : ServerConfig) :
    (∀ v : JSPrim, validateRequest cfg (.prim v) = .error msgMustBeObject) ∧
    (∀ r : RawRequest, r.prompt = .undef ∨ r.prompt.isString = false →
        validateRequest cfg (.obj r) = .error msgPromptRequired) := by
  constructor
  · intro v
    rfl
  · intro r h
    have hns : r.prompt.isString = false := by
      rcases h with h | h
      · rw [h]; rfl
      · exact h
    cases hp : r.prompt with
    | str p => rw [hp] at hns; exact absurd hns (by simp [JSVal.isString])
    | undef => simp only [validateRequest, hp]
    | null => simp only [validateRequest, hp]
    | bool b => simp only [validateRequest, hp]
    | num q => simp only [validateRequest, hp]
    | objv => simp only [validateRequest, hp]

/-- C6 (witness): the two rejections at concrete inputs — the primitive
`null`, and an object with no `prompt` field. -/
theorem validateRequest_rejects_witness :
    validateRequest exampleConfig (.prim .null) = .error msgMustBeObject ∧
    validateRequest exampleConfig (.obj {}) = .error msgPromptRequired :=
  ⟨(validateRequest_rejects exampleConfig).1 .null,
   (validateRequest_rejects exampleConfig).2 {} (Or.inl rfl)⟩

/-- Evaluation of `validateRequest` on an accepted input: an object whose
`prompt` is a non-empty string. The result is the record the source builds,
with each optional field still expressed by its guard. -/
theorem validateRequest_obj_str (cfg : ServerConfig) (r : RawRequest) (p : JsStr)
    (hp : r.prompt = .str p) (hne : p.isEmpty = false) :
    validateRequest cfg (.obj r) = .ok
      { prompt := sanitizeText p
        model := if r.model.truthy then r.model else .str cfg.openai.defaultModel
        verbosity := if r.verbosity.truthy then r.verbosity else .str "medium".toList
        reasoning_effort :=
          if r.reasoning_effort.truthy then r.reasoning_effort
          else .str "standard".toList
        context :=
          match r.context with
          | .str c => if c.isEmpty then none else some (sanitizeText c)
          | _ => none
        max_tokens :=
          match r.max_tokens with
          | .num q => if q == 0 then none else some (min (max q 1) 128000)
          | _ => none
        temperature :=
          match r.temperature with
          | .num q => some (min (max q 0) 2)
          | _ => none } := by
  simp only [validateRequest, hp, hne, Bool.false_eq_true, if_false]

/-- C2 (counterexample). The claim "0 maps to 1" is false: `0` is falsy, so
the guard `rawRequest.max_tokens && typeof rawRequest.max_tokens === 'number'`
skips the clamping entirely and the validated request carries no `max_tokens`
at all. -/
theorem validateRequest_max_tokens_zero_cex :
    validateRequest exampleConfig (.obj rawMaxTokensZero) = .ok reqMaxTokensZero ∧
    reqMaxTokensZero.max_tokens = none ∧
    reqMaxTokensZero.max_tokens ≠ some 1 := by
  refine ⟨by decide, rfl, by decide⟩

/-- C2 (amended). For a numeric `max_tokens` outside `[1, 128000]`: a
non-zero value is clamped to the nearest boundary (`200000 → 128000`,
negative values → 1), while `0` — being falsy — produces a request with no
`max_tokens` field instead of `1`. -/
theorem validateRequest_max_tokens_clamp (cfg : ServerConfig) (r : RawRequest)
    (p : JsStr) (q : ℚ)
    (hp : r.prompt = .str p) (hpe : p.isEmpty = false)
    (hm : r.max_tokens = .num q) (hq : q < 1 ∨ 128000 < q) :
    ∃ req, validateRequest cfg (.obj r) = .ok req ∧
      req.max_tokens = if q = 0 then none else some (if q < 1 then 1 else 128000) := by
  refine ⟨_, validateRequest_obj_str cfg r p hp hpe, ?_⟩
  dsimp only
  rw [hm]
  rcases hq with hq | hq
  · by_cases h0 : q = 0
    · simp [h0]
    · have hb : (q == 0) = false := by simp [h0]
      simp only [hb, Bool.false_eq_true, if_false, if_neg h0, if_pos hq]
      rw [max_eq_right hq.le, min_eq_left (by norm_num)]
  · have h0 : ¬ q = 0 := by intro h; rw [h] at hq; norm_num at hq
    have hq1 : ¬ q < 1 := fun h => absurd (hq.trans h) (by norm_num)
    have hb : (q == 0) = false := by simp [h0]
    simp only [hb, Bool.false_eq_true, if_false, if_neg h0, if_neg hq1]
    rw [max_eq_left (le_trans (by norm_num) hq.le), min_eq_right hq.le]

/-- C2 (witness): the amended clamping at the concrete input
`max_tokens = 200000`, which the claim itself names. -/
theorem validateRequest_max_tokens_clamp_witness :
    (rawMaxTokensBig.prompt = .str "hi".toList ∧
     List.isEmpty ("hi".toList : JsStr) = false ∧
     rawMaxTokensBig.max_tokens = .num 200000 ∧
     ((200000 : ℚ) < 1 ∨ (128000 : ℚ) < 200000)) ∧
    ∃ req, validateRequest exampleConfig (.obj rawMaxTokensBig) = .ok req ∧
      req.max_tokens = if (200000 : ℚ) = 0 then none
        else some (if (200000 : ℚ) < 1 then 1 else 128000) :=
  ⟨⟨rfl, rfl, rfl, Or.inr (by norm_num)⟩,
   validateRequest_max_tokens_clamp exampleConfig rawMaxTokensBig "hi".toList 200000
     rfl rfl rfl (Or.inr (by norm_num))⟩

/-- C7 (counterexample). The invariant "prompt is non-empty after validation"
fails: the raw prompt `' '` passes the `!rawRequest.prompt` guard (it is a
non-empty string), but `sanitizeText` trims it to the empty string, so the
accepted request's prompt is empty. -/
theorem validateRequest_blank_prompt_cex :
    validateRequest exampleConfig (.obj rawBlankPrompt) = .ok reqBlankPrompt ∧
    reqBlankPrompt.prompt = [] :=
  ⟨by decide, rfl⟩

/-- C7 (amended). Every input `validateRequest` accepts is an object whose
raw `prompt` was a non-empty string, and the accepted request's prompt is its
sanitization (which may itself be empty); `model`, `verbosity` and
`reasoning_effort` are filled with their defaults when absent from the input
rather than causing an error. -/
theorem validateRequest_accepts_defaults (cfg : ServerConfig) (raw : RawInput)
    (req : GPT5QueryRequest) (h : validateRequest cfg raw = .ok req) :
    (∃ r p, raw = .obj r ∧ r.prompt = .str p ∧ p ≠ [] ∧
        req.prompt = sanitizeText p) ∧
    (∀ r, raw = .obj r → r.model = .undef →
        req.model = .str cfg.openai.defaultModel) ∧
    (∀ r, raw = .obj r → r.verbosity = .undef →
        req.verbosity = .str "medium".toList) ∧
    (∀ r, raw = .obj r → r.reasoning_effort = .undef →
        req.reasoning_effort = .str "standard".toList) := by
  cases raw with
  | prim v => exact absurd h (by simp [validateRequest])
  | obj r =>
    cases hp : r.prompt with
    | str p =>
      by_cases hne : p.isEmpty = true
      · exact absurd h (by simp [validateRequest, hp, hne])
      · replace hne : p.isEmpty = false := by
          cases hb : p.isEmpty
          · rfl
          · exact absurd hb hne
        have heval := validateRequest_obj_str cfg r p hp hne
        rw [heval] at h
        simp only [Except.ok.injEq] at h
        subst h
        have hpne : p ≠ [] := by
          intro he
          rw [he] at hne
          simp at hne
        refine ⟨⟨r, p, rfl, hp, hpne, rfl⟩, ?_, ?_, ?_⟩
        · intro r' hr' hm
          cases hr'
          dsimp only
          rw [hm]
          rfl
        · intro r' hr' hv
          cases hr'
          dsimp only
          rw [hv]
          rfl
        · intro r' hr' he
          cases hr'
          dsimp only
          rw [he]
          rfl
    | undef => exact absurd h (by simp [validateRequest, hp])
    | null => exact absurd h (by simp [validateRequest, hp])
    | bool b => exact absurd h (by simp [validateRequest, hp])
    | num q => exact absurd h (by simp [validateRequest, hp])
    | objv => exact absurd h (by simp [validateRequest, hp])

/-- C7 (witness): the amended theorem applied to the concrete accepted input
`{ prompt: 'Hello' }` with every enumeration absent. -/
theorem validateRequest_accepts_defaults_witness :
    validateRequest exampleConfig (.obj rawHello) = .ok reqHello ∧
    ((∃ r p, RawInput.obj rawHello = .obj r ∧ r.prompt = .str p ∧ p ≠ [] ∧
        reqHello.prompt = sanitizeText p) ∧
     (∀ r, RawInput.obj rawHello = .obj r → r.model = .undef →
        reqHello.model = .str exampleConfig.openai.defaultModel) ∧
     (∀ r, RawInput.obj rawHello = .obj r → r.verbosity = .undef →
        reqHello.verbosity = .str "medium".toList) ∧
     (∀ r, RawInput.obj rawHello = .obj r → r.reasoning_effort = .undef →
        reqHello.reasoning_effort = .str "standard".toList)) :=
  ⟨by decide,
   validateRequest_accepts_defaults exampleConfig (.obj rawHello) reqHello (by decide)⟩

/-- The context branch never touches the prompt. -/
theorem truncateContext_prompt (r : GPT5QueryRequest) :
    (truncateContext r).prompt = r.prompt := by
  unfold truncateContext
  cases r.context
  · rfl
  · dsimp only
    split
    · rfl
    · rfl

/-- The prompt branch never touches the context. -/
theorem truncatePrompt_context (r : GPT5QueryRequest) :
    (truncatePrompt r).context = r.context := by
  unfold truncatePrompt
  split
  · rfl
  · rfl

/-- C1. For every request whose token estimate
`ceil((|prompt| + |context|) / 4)` exceeds 380000, `truncateIfNeeded`:
cuts a present non-empty context down to the character budget left after the
prompt (`380000 * 4 - |prompt|`, truncated at zero) and appends the marker;
cuts the prompt only when the prompt alone exceeds the `380000 * 4 = 1520000`
character budget, keeping `maxChars - 100` characters before the marker and
leaving it unchanged otherwise; in every case some truncated field ends with
the literal `'...[truncated]'`. The operation is a total function — it never
fails. -/
theorem truncateIfNeeded_over_budget (req : GPT5QueryRequest)
    (h : estimateTokens (req.prompt ++ contextOrEmpty req) > 380000) :
    (∀ c, req.context = some c → c ≠ [] →
        (truncateIfNeeded req).context =
          some (c.take (380000 * 4 - req.prompt.length) ++ truncMarker) ∧
        truncMarker <:+ ((truncateIfNeeded req).context.getD [])) ∧
    (req.prompt.length > 380000 * 4 →
        (truncateIfNeeded req).prompt =
          req.prompt.take (380000 * 4 - 100) ++ truncMarker) ∧
    (req.prompt.length ≤ 380000 * 4 → (truncateIfNeeded req).prompt = req.prompt) ∧
    (truncMarker <:+ (truncateIfNeeded req).prompt ∨
     truncMarker <:+ ((truncateIfNeeded req).context.getD [])) := by
  have hlen : 380000 * 4 < req.prompt.length + (contextOrEmpty req).length := by
    unfold estimateTokens at h
    rw [List.length_append] at h
    omega
  have hun : truncateIfNeeded req = truncatePrompt (truncateContext req) := by
    unfold truncateIfNeeded
    rw [if_pos h]
  rcases hc : req.context with _ | c
  · -- no context: the whole excess is in the prompt
    have hce : contextOrEmpty req = [] := by simp [contextOrEmpty, hc]
    have hpl : 380000 * 4 < req.prompt.length := by
      rw [hce] at hlen
      simpa using hlen
    have hctx : truncateContext req = req := by
      unfold truncateContext
      rw [hc]
    have hP : (truncateIfNeeded req).prompt =
        req.prompt.take (380000 * 4 - 100) ++ truncMarker := by
      rw [hun, hctx]
      unfold truncatePrompt
      rw [if_pos hpl]
    refine ⟨?_, fun _ => hP, ?_, ?_⟩
    · intro c' hcon
      exact absurd hcon (by simp)
    · intro hle
      exact absurd hle (by omega)
    · left
      rw [hP]
      exact ⟨_, rfl⟩
  · by_cases hcnil : c = []
    · -- empty-string context is falsy: the context branch does nothing
      subst hcnil
      have hce : contextOrEmpty req = [] := by simp [contextOrEmpty, hc]
      have hpl : 380000 * 4 < req.prompt.length := by
        rw [hce] at hlen
        simpa using hlen
      have hctx : truncateContext req = req := by
        unfold truncateContext
        rw [hc]
        rfl
      have hP : (truncateIfNeeded req).prompt =
          req.prompt.take (380000 * 4 - 100) ++ truncMarker := by
        rw [hun, hctx]
        unfold truncatePrompt
        rw [if_pos hpl]
      refine ⟨?_, fun _ => hP, ?_, ?_⟩
      · intro c' hcon hne
        injection hcon with hcc
        exact absurd hcc.symm hne
      · intro hle
        exact absurd hle (by omega)
      · left
        rw [hP]
        exact ⟨_, rfl⟩
    · -- present non-empty context: it is cut to the remaining budget
      have hcec : contextOrEmpty req = c := by simp [contextOrEmpty, hc]
      have hlc : req.prompt.length + c.length > 380000 * 4 := by
        rw [hcec] at hlen
        exact hlen
      have hie : c.isEmpty = false := by
        cases c
        · exact absurd rfl hcnil
        · rfl
      have hCc : (truncateContext req).context =
          some (c.take (380000 * 4 - req.prompt.length) ++ truncMarker) := by
        unfold truncateContext
        rw [hc]
        dsimp only
        rw [if_pos (by simp [hie, hlc])]
      have hC : (truncateIfNeeded req).context =
          some (c.take (380000 * 4 - req.prompt.length) ++ truncMarker) := by
        rw [hun, truncatePrompt_context, hCc]
      have hmk : truncMarker <:+ ((truncateIfNeeded req).context.getD []) := by
        rw [hC]
        exact ⟨_, rfl⟩
      by_cases hpl : req.prompt.length > 380000 * 4
      · have hP : (truncateIfNeeded req).prompt =
            req.prompt.take (380000 * 4 - 100) ++ truncMarker := by
          rw [hun]
          unfold truncatePrompt
          rw [truncateContext_prompt, if_pos hpl]
        refine ⟨?_, fun _ => hP, ?_, Or.inr hmk⟩
        · intro c' hcon hne
          injection hcon with hcc
          subst hcc
          exact ⟨hC, hmk⟩
        · intro hle
          exact absurd hle (by omega)
      · have hP : (truncateIfNeeded req).prompt = req.prompt := by
          rw [hun]
          unfold truncatePrompt
          rw [truncateContext_prompt, if_neg hpl, truncateContext_prompt]
        refine ⟨?_, ?_, fun _ => hP, Or.inr hmk⟩
        · intro c' hcon hne
          injection hcon with hcc
          subst hcc
          exact ⟨hC, hmk⟩
        · intro hgt
          exact absurd hgt hpl

/-- The defining equation of `estimateTokens`, as a rewrite rule
(`Math.ceil(n / 4) = (n + 3) / 4` in natural-number division). -/
theorem estimateTokens_def (t : JsStr) : estimateTokens t = (t.length + 3) / 4 := rfl

/-- C1 (witness): the truncation contract at the concrete over-budget
request `bigReq`. -/
theorem truncateIfNeeded_over_budget_witness :
    estimateTokens (bigReq.prompt ++ contextOrEmpty bigReq) > 380000 ∧
    ((∀ c, bigReq.context = some c → c ≠ [] →
        (truncateIfNeeded bigReq).context =
          some (c.take (380000 * 4 - bigReq.prompt.length) ++ truncMarker) ∧
        truncMarker <:+ ((truncateIfNeeded bigReq).context.getD [])) ∧
     (bigReq.prompt.length > 380000 * 4 →
        (truncateIfNeeded bigReq).prompt =
          bigReq.prompt.take (380000 * 4 - 100) ++ truncMarker) ∧
     (bigReq.prompt.length ≤ 380000 * 4 →
        (truncateIfNeeded bigReq).prompt = bigReq.prompt) ∧
     (truncMarker <:+ (truncateIfNeeded bigReq).prompt ∨
      truncMarker <:+ ((truncateIfNeeded bigReq).context.getD []))) := by
  have hlen : (bigReq.prompt ++ contextOrEmpty bigReq).length = 1520008 := by
    rw [List.length_append]
    rw [show bigReq.prompt = List.replicate 8 'a' from rfl]
    rw [show contextOrEmpty bigReq = List.replicate 1520000 'b' from rfl]
    rw [List.length_replicate, List.length_replicate]
  have hbig : estimateTokens (bigReq.prompt ++ contextOrEmpty bigReq) > 380000 := by
    rw [estimateTokens_def, hlen]
    norm_num
  exact ⟨hbig, truncateIfNeeded_over_budget bigReq hbig⟩

/-- C10. When the estimate is within the 380000-token budget,
`truncateIfNeeded` is the identity: every field of the returned request —
prompt, context, model, verbosity, reasoning_effort, max_tokens and
temperature — equals that of the input. -/
theorem truncateIfNeeded_under_budget (req : GPT5QueryRequest)
    (h : estimateTokens (req.prompt ++ contextOrEmpty req) ≤ 380000) :
    truncateIfNeeded req = req ∧
    (truncateIfNeeded req).prompt = req.prompt ∧
    (truncateIfNeeded req).context = req.context ∧
    (truncateIfNeeded req).model = req.model ∧
    (truncateIfNeeded req).verbosity = req.verbosity ∧
    (truncateIfNeeded req).reasoning_effort = req.reasoning_effort ∧
    (truncateIfNeeded req).max_tokens = req.max_tokens ∧
    (truncateIfNeeded req).temperature = req.temperature := by
  have e : truncateIfNeeded req = req := by
    unfold truncateIfNeeded
    rw [if_neg (by omega)]
  exact ⟨e, by rw [e], by rw [e], by rw [e], by rw [e], by rw [e], by rw [e], by rw [e]⟩

/-- C10 (witness): the frame property at the concrete in-budget request. -/
theorem truncateIfNeeded_under_budget_witness :
    estimateTokens (shortReq.prompt ++ contextOrEmpty shortReq) ≤ 380000 ∧
    (truncateIfNeeded shortReq = shortReq ∧
     (truncateIfNeeded shortReq).prompt = shortReq.prompt ∧
     (truncateIfNeeded shortReq).context = shortReq.context ∧
     (truncateIfNeeded shortReq).model = shortReq.model ∧
     (truncateIfNeeded shortReq).verbosity = shortReq.verbosity ∧
     (truncateIfNeeded shortReq).reasoning_effort = shortReq.reasoning_effort ∧
     (truncateIfNeeded shortReq).max_tokens = shortReq.max_tokens ∧
     (truncateIfNeeded shortReq).temperature = shortReq.temperature) :=
  ⟨by decide, truncateIfNeeded_under_budget shortReq (by decide)⟩
